import Mathlib

/-!
Verification of the orchestrator in `auto_editor/__main__.py` (version
string `20w31a`): a shallow embedding of the input-resolution, frame-rate
probing, output-naming and strategy-dispatch pipeline of `main`, together
with theorems settling the specification's claims about it.

Python strings are modelled as `String` (internally `List Char`), Python
floats appearing only in order comparisons are modelled as `ℚ`, and the
filesystem / external-tool environment is an explicit `World` of oracles.
Statements about unbound Python names in the source (`sort`, `newOutput`,
`extension`, `outFile`) are modelled as explicit crash outcomes, since
reaching them raises an uncaught `NameError`.
-/

namespace AutoEditor

/-! ## Frame-rate probe: `re.search(r'\s(?P<fps>[\d\.]+?)\stbr', output)`
(line 231) and `float(matchDict['fps'])` (line 232). -/

/-- Whitespace characters recognised by the regex class `\s` (ASCII). -/
def isWsChar (c : Char) : Bool :=
  c = ' ' || c = '\t' || c = '\n' || c = '\r' || c = '\x0b' || c = '\x0c'

/-- Characters matched by the regex class `[\d\.]`. -/
def isFpsChar (c : Char) : Bool :=
  c.isDigit || c = '.'

/-- Does the text continue with `\stbr`, closing the lazily matched group? -/
def closesTbr : List Char → Bool
  | w :: 't' :: 'b' :: 'r' :: _ => isWsChar w
  | _ => false

/-- Match the lazy group `[\d\.]+?` followed by `\stbr` at the head of the
text, returning the shortest group the backtracking engine would take. -/
def fpsGroup : List Char → Option (List Char)
  | [] => none
  | c :: rest =>
    if isFpsChar c then
      if closesTbr rest then some [c]
      else
        match fpsGroup rest with
        | some g => some (c :: g)
        | none => none
    else none

/-- The regex search of line 231: scan for the leftmost position where a
whitespace character is followed by `[\d\.]+?\stbr`; the returned value is
the captured `fps` group, `none` when `re.search` returns `None` (in which
case line 231's `.groupdict()` raises `AttributeError`). -/
def searchTbr : List Char → Option (List Char)
  | [] => none
  | c :: rest =>
    if isWsChar c then
      match fpsGroup rest with
      | some g => some g
      | none => searchTbr rest
    else searchTbr rest

/-- Acceptance of Python `float` on a token drawn from `[\d\.]+`: such a
token parses exactly when it has at least one digit and at most one dot
(`'5'`, `'29.97'`, `'5.'`, `'.5'` parse; `'.'`, `'1.2.3'` raise
`ValueError`). -/
def pyFloatOk (g : List Char) : Bool :=
  g.any (·.isDigit) && g.countP (· = '.') ≤ 1

/-- Outcome of the frame-rate probe block, lines 221-244, as a function of
the decoder's combined diagnostic text. -/
inductive ProbeStep
  /-- A frame-rate token was matched and parsed; execution falls through
  with the input path unchanged. -/
  | ok
  /-- A token was matched but `float` fails on it: the `ValueError` is not
  caught by the `except AttributeError` clause of line 233, so the process
  crashes. -/
  | crashValue
  /-- No match: `.groupdict()` raises `AttributeError`, the handler prints
  the warning and calls `tempfile.mkdtemp()` (line 237), and then building
  the re-encode command at line 240 reads the never-assigned name
  `extension`, raising an uncaught `NameError`. -/
  | repairCrash
deriving DecidableEq

/-- The frame-rate probe of lines 221-244 applied to the probe text. -/
def frameRateStep (probeText : String) : ProbeStep :=
  match searchTbr probeText.data with
  | none => .repairCrash
  | some g => if pyFloatOk g then .ok else .crashValue

/-! ## Output naming, lines 173-181. -/

/-- Index of the last `'.'`, as an optional position (innermost helper for
Python's `str.rfind('.')`). -/
def rfindDotAux : List Char → Option Nat
  | [] => none
  | c :: cs =>
    match rfindDotAux cs with
    | some i => some (i + 1)
    | none => if c = '.' then some 0 else none

/-- Python's `oldFile.rfind('.')` of line 176: the index of the last dot,
or `-1` when there is none. -/
def rfindDot (cs : List Char) : Int :=
  match rfindDotAux cs with
  | some i => (i : Int)
  | none => -1

/-- Python slice `s[:d]` with a possibly negative index `d`. -/
def pyTake (cs : List Char) (d : Int) : List Char :=
  if d < 0 then cs.take (cs.length - (-d).toNat) else cs.take d.toNat

/-- Python slice `s[d:]` with a possibly negative index `d`. -/
def pyDrop (cs : List Char) (d : Int) : List Char :=
  if d < 0 then cs.drop (cs.length - (-d).toNat) else cs.drop d.toNat

/-- List-level body of the synthesized-name rule of lines 176-181:
`dotIndex = oldFile.rfind('.')`; in export mode the result is
`oldFile[:dotIndex] + '.xml'`, otherwise it is
`oldFile[:dotIndex] + '_ALTERED' + oldFile[dotIndex:]`. -/
def deriveNameL (exportToPremiere : Bool) (cs : List Char) : List Char :=
  let d := rfindDot cs
  if exportToPremiere then pyTake cs d ++ ".xml".data
  else pyTake cs d ++ "_ALTERED".data ++ pyDrop cs d

/-- The synthesized output name for one input (lines 176-181). -/
def deriveName (exportToPremiere : Bool) (oldFile : String) : String :=
  String.mk (deriveNameL exportToPremiere oldFile.data)

/-- Output-list completion of lines 173-181: when fewer output names than
inputs were supplied, the loop `for i in range(len(inputList) -
len(args.output_file))` appends one synthesized name per missing slot,
each derived from `inputList[i]` — the input at position `i` counted from
the start of the input list. -/
def synthesizeOutputs (exportToPremiere : Bool)
    (inputList outputFile : List String) : List String :=
  if outputFile.length < inputList.length then
    outputFile ++
      (List.range (inputList.length - outputFile.length)).map
        (fun i => deriveName exportToPremiere (inputList.getD i ""))
  else outputFile

/-! ## Strategy selection, lines 206-266. -/

/-- The four mutually exclusive processing strategies. -/
inductive Strategy
  | premiereExport
  | audioFast
  | videoFast
  | originalFull
deriving DecidableEq

/-- The dispatch decision of the per-input loop: `args.export_to_premiere`
is tested first (line 207), then `isAudioFile(INPUT_FILE)` (line 214), and
otherwise the condition of lines 249-250 — `args.background_music is None
and args.zoom_threshold > 1 and args.cut_by_this_audio is None` — selects
the fast video path, with the original method as the remaining case. -/
def selectStrategy (exportToPremiere isAudio : Bool)
    (backgroundMusic : Option String) (zoomThreshold : ℚ)
    (cutByThisAudio : Option String) : Strategy :=
  if exportToPremiere then .premiereExport
  else if isAudio then .audioFast
  else if backgroundMusic = none ∧ 1 < zoomThreshold ∧ cutByThisAudio = none then
    .videoFast
  else .originalFull

/-- The strategy tree exactly as the claim words it: the fast video path is
taken when no background music was requested, no cut-by-external-audio
override is set, and the zoom threshold does not exceed the sounded-volume
threshold (the `silent_threshold` option). This definition follows the
claim's words, to be compared against `selectStrategy`, which follows the
source. -/
def selectStrategyClaimed (exportToPremiere isAudio : Bool)
    (backgroundMusic : Option String) (zoomThreshold silentThreshold : ℚ)
    (cutByThisAudio : Option String) : Strategy :=
  if exportToPremiere then .premiereExport
  else if isAudio then .audioFast
  else if backgroundMusic = none ∧ cutByThisAudio = none ∧
      zoomThreshold ≤ silentThreshold then
    .videoFast
  else .originalFull

/-! ## Job options (the `args` namespace) and speed clamping, lines 146-149. -/

/-- The option fields of `args` read by the embedded region of `main`
(lines 141-291). Options that only gate printing, the version/cache/debug
early exits of lines 110-139 and the platform-specific tool-path selection
of lines 121-129 are outside the modelled pipeline. -/
structure Args where
  input : List String
  output_file : List String
  silent_threshold : ℚ
  silent_speed : ℚ
  video_speed : ℚ
  zoom_threshold : ℚ
  background_music : Option String
  cut_by_this_audio : Option String
  export_to_premiere : Bool
  combine_files : Bool
  preview : Bool

/-- The clamp applied to each speed option on lines 146-149: a value that
is `<= 0 or > 99999` is replaced by `99999`. -/
def clampSpeed (s : ℚ) : ℚ :=
  if s ≤ 0 ∨ 99999 < s then 99999 else s

/-- The argument rewrite of lines 146-149, performed before the input list
is resolved and before any input is processed: both speed options are
clamped in place, every later read of `args.silent_speed` and
`args.video_speed` sees the clamped value. -/
def effectiveArgs (a : Args) : Args :=
  { a with
    silent_speed := clampSpeed a.silent_speed
    video_speed := clampSpeed a.video_speed }

/-- The argparse defaults of the modelled options (lines 41-98):
`silent_threshold` 0.04, `silent_speed` 99999, `video_speed` 1.00,
`zoom_threshold` 1.01, no background music, no external cut audio, all
mode flags off. -/
def argsDefault : Args where
  input := []
  output_file := []
  silent_threshold := mkRat 1 25
  silent_speed := 99999
  video_speed := 1
  zoom_threshold := mkRat 101 100
  background_music := none
  cut_by_this_audio := none
  export_to_premiere := false
  combine_files := false
  preview := false

/-! ## The environment and the run model, lines 141-291. -/

/-- Oracles for the host environment: the filesystem tests used by the
resolver, the audio classification of `usefulFunctions.isAudioFile`
(line 214), and the decoder's combined diagnostic text for a given input
path (lines 223-226). -/
structure World where
  isFile : String → Bool
  isDir : String → Bool
  isAudio : String → Bool
  probeOut : String → String

/-- Names that are read but never assigned anywhere in `main`; reaching
them raises an uncaught `NameError`, and line 232 can raise an uncaught
`ValueError`. An uncaught exception terminates the Python process with
exit status 1. -/
inductive PyError
  /-- Line 157 calls `sort(...)`, but no `sort` is in scope (the Python
  builtin is `sorted`). -/
  | nameErrorSort
  /-- Lines 210, 217, 254 and 261 pass `newOutput` to the strategies, but
  `newOutput` is never assigned. -/
  | nameErrorNewOutput
  /-- Line 240 interpolates `extension` into the re-encode target path,
  but `extension` is never assigned. -/
  | nameErrorExtension
  /-- Line 273 tests `os.path.isfile(outFile)`, but `outFile` is never
  assigned. -/
  | nameErrorOutFile
  /-- Line 232's `float` call fails on the matched token. -/
  | valueErrorFloat
deriving DecidableEq

/-- How a run of `main` ends: an explicit `sys.exit` with the given code,
or an uncaught exception (which exits the process with status 1). -/
inductive Outcome
  | exited (code : Nat)
  | crashed (e : PyError)
deriving DecidableEq

/-- The process exit status an `Outcome` produces. -/
def Outcome.exitCode : Outcome → Nat
  | .exited n => n
  | .crashed _ => 1

/-- Observable milestones of a run, in program order. -/
inductive Event
  /-- Line 170: `print('Could not find file:', myInput)`. -/
  | reportMissing (ref : String)
  /-- Completion of the output-naming block of lines 173-181 with the
  final output list. -/
  | namedOutputs (outs : List String)
  /-- Lines 234-235: the frame-rate warning for an input. -/
  | warnFrameRate (input : String)
  /-- Line 237: `TEMP = tempfile.mkdtemp()` creates the ephemeral working
  directory. -/
  | mkTemp
  /-- Control enters one of the four strategy branches for an input
  (lines 207-266). -/
  | dispatch (s : Strategy) (input : String)
  /-- Line 290: `rmtree(TEMP)` releases the ephemeral working directory. -/
  | removeTemp
deriving DecidableEq

/-- Python's `str.startswith`, used on lines 160 for the URL schemes.
Lean's own `String.startsWith` works on byte positions and does not reduce
in the kernel, so it is spelled out on the character lists. -/
def pyStartsWith (s pat : String) : Bool :=
  pat.data.isPrefixOf s.data

/-- Failure of the resolution loop, lines 154-171. -/
inductive ResolveError
  /-- Lines 169-171: a reference that is no directory, no file and no
  `http(s)://` URL is reported and the run exits with status 1. -/
  | invalidInput (ref : String)
  /-- An uncaught exception inside the loop. -/
  | crash (e : PyError)
deriving DecidableEq

/-- The input-resolution loop of lines 154-171, in list order. A directory
hits line 157, whose call to the unbound name `sort` raises `NameError`
before any directory entry is read. An existing file is appended. A URL
reference downloads and appends `<basename>.mp4`; the source line 168
(`inputList.append.(basename + '.mp4')`) is a syntax defect, modelled from
the spec: "a correct implementation must simply append the computed
filename to the resolved list", with the base name produced by collapsing
every run of non-word characters (modelled abstractly per URL, since no
claim depends on its exact spelling). Anything else is reported and the
run exits with status 1. -/
def resolveInputs (w : World) (urlBase : String → String) :
    List String → Except ResolveError (List String)
  | [] => .ok []
  | r :: rs =>
    if w.isDir r then .error (.crash .nameErrorSort)
    else if w.isFile r then
      match resolveInputs w urlBase rs with
      | .ok l => .ok (r :: l)
      | .error e => .error e
    else if pyStartsWith r "http://" || pyStartsWith r "https://" then
      match resolveInputs w urlBase rs with
      | .ok l => .ok ((urlBase r ++ ".mp4") :: l)
      | .error e => .error e
    else .error (.invalidInput r)

/-- One iteration of the per-input loop of lines 206-266. Premiere export
and audio inputs dispatch directly; the two video strategies are reached
only after the frame-rate probe of lines 221-244. Every strategy call
passes the never-assigned `newOutput`, so the call raises `NameError`
after the branch has been entered; the frame-rate repair path crashes on
the never-assigned `extension` after creating the temporary directory; and
a token that fails `float` raises an uncaught `ValueError`. -/
def processInput (w : World) (a : Args) (f : String) : List Event × Outcome :=
  match selectStrategy a.export_to_premiere (w.isAudio f) a.background_music
      a.zoom_threshold a.cut_by_this_audio with
  | .premiereExport => ([.dispatch .premiereExport f], .crashed .nameErrorNewOutput)
  | .audioFast => ([.dispatch .audioFast f], .crashed .nameErrorNewOutput)
  | s =>
    match frameRateStep (w.probeOut f) with
    | .ok => ([.dispatch s f], .crashed .nameErrorNewOutput)
    | .crashValue => ([], .crashed .valueErrorFloat)
    | .repairCrash => ([.warnFrameRate f, .mkTemp], .crashed .nameErrorExtension)

/-- Lines 273-290, reached only if the per-input loop finishes. Line 273
reads the never-assigned `outFile`, so the check raises `NameError`
whatever the declared outputs and whatever is on disk; the open-file chain
(lines 277-287) and the `rmtree(TEMP)` cleanup (lines 289-290) sit after
it and are never reached. -/
def finalOutputCheck (_w : World) (_lastOut : String) : Outcome :=
  .crashed .nameErrorOutFile

/-- The result of one run of `main`: the milestone trace and how the
process ended. -/
structure RunResult where
  events : List Event
  outcome : Outcome
deriving DecidableEq

/-- The stretch of `main` after successful resolution, lines 173-291:
output naming (173-181), optional combine (183-192), optional preview
exit (194-200), then the per-input loop (206-266) followed by the
final-output check (273-275). `a` is the clamped argument record and
`inputList` the resolved queue. Since every loop iteration ends in an
uncaught exception (see `processInput`), only the first queued input is
ever processed, and the post-loop code runs only for an empty queue. -/
def runResolved (w : World) (a : Args) (inputList : List String) : RunResult :=
  let outs := synthesizeOutputs a.export_to_premiere inputList a.output_file
  let queue := if a.combine_files then ["combined.mp4"] else inputList
  if a.preview then ⟨[.namedOutputs outs], .exited 0⟩
  else
    match queue with
    | [] => ⟨[.namedOutputs outs], finalOutputCheck w (outs.getLastD "")⟩
    | f :: _ => ⟨.namedOutputs outs :: (processInput w a f).1, (processInput w a f).2⟩

/-- The orchestrator, lines 141-291: empty-input check (141-144), speed
clamping (146-149, `effectiveArgs`), input resolution (154-171), then
`runResolved` for the rest. `urlBase` abstracts the downloader's base-name
derivation of line 162. -/
def run (w : World) (urlBase : String → String) (a : Args) : RunResult :=
  if a.input = [] then ⟨[], .exited 1⟩
  else
    match resolveInputs w urlBase (effectiveArgs a).input with
    | .error (.invalidInput r) => ⟨[.reportMissing r], .exited 1⟩
    | .error (.crash e) => ⟨[], .crashed e⟩
    | .ok inputList => runResolved w (effectiveArgs a) inputList

/-- The world with no files, no directories, no audio classification and
empty probe text. -/
def emptyWorld : World :=
  { isFile := fun _ => false, isDir := fun _ => false,
    isAudio := fun _ => false, probeOut := fun _ => "" }

/-- A world containing exactly one plain (non-audio) media file, whose
decoder probe emits the given diagnostic text. -/
def videoWorld (name probe : String) : World :=
  { isFile := fun s => s == name, isDir := fun _ => false,
    isAudio := fun _ => false, probeOut := fun _ => probe }

/-- A world containing exactly one directory. -/
def dirWorld (name : String) : World :=
  { isFile := fun _ => false, isDir := fun s => s == name,
    isAudio := fun _ => false, probeOut := fun _ => "" }

/-- A fixed downloader base-name oracle for concrete runs. -/
def noUrl : String → String := fun _ => "dl"

/-! ## Helper lemmas. -/

theorem effectiveArgs_input (a : Args) : (effectiveArgs a).input = a.input := rfl

theorem rfindDotAux_eq_none : ∀ (cs : List Char), '.' ∉ cs → rfindDotAux cs = none := by
  intro cs h
  induction cs with
  | nil => rfl
  | cons x xs ih =>
    rw [List.mem_cons, not_or] at h
    rw [rfindDotAux, ih h.2]
    exact if_neg fun hx => h.1 hx.symm

theorem rfindDot_eq_neg_one {cs : List Char} (h : '.' ∉ cs) : rfindDot cs = -1 := by
  rw [rfindDot, rfindDotAux_eq_none cs h]

theorem rfindDotAux_append_dot (xs ys : List Char) (h : '.' ∉ ys) :
    rfindDotAux (xs ++ '.' :: ys) = some xs.length := by
  induction xs with
  | nil => rw [List.nil_append, rfindDotAux, rfindDotAux_eq_none ys h, if_pos rfl]; rfl
  | cons x xs ih => rw [List.cons_append, rfindDotAux, ih]; rfl

theorem rfindDot_append_dot (xs ys : List Char) (h : '.' ∉ ys) :
    rfindDot (xs ++ '.' :: ys) = (xs.length : Int) := by
  rw [rfindDot, rfindDotAux_append_dot xs ys h]

theorem pyTake_natCast (cs : List Char) (n : Nat) : pyTake cs (n : Int) = cs.take n := by
  simp [pyTake]

theorem pyDrop_natCast (cs : List Char) (n : Nat) : pyDrop cs (n : Int) = cs.drop n := by
  simp [pyDrop]

theorem pyTake_neg_one (cs : List Char) : pyTake cs (-1) = cs.take (cs.length - 1) := by
  simp [pyTake]

theorem pyDrop_neg_one (cs : List Char) : pyDrop cs (-1) = cs.drop (cs.length - 1) := by
  simp [pyDrop]

theorem string_eq_of_data {s t : String} (h : s.data = t.data) : s = t :=
  String.ext h

theorem getD_range_map (m k : Nat) (f : Nat → String) (hk : k < m) :
    ((List.range m).map f).getD k "" = f k := by
  have hk' : k < ((List.range m).map f).length := by
    rw [List.length_map, List.length_range]; exact hk
  rw [List.getD_eq_getElem _ _ hk', List.getElem_map, List.getElem_range]

/-! ## Claim theorems. -/

/-- C1, counterexample. The claim routes an input to the fast video path
only when the zoom threshold does not exceed the sounded-volume threshold
(`selectStrategyClaimed`); the source routes on `zoom_threshold > 1`
(`selectStrategy`). At the argparse defaults — a plain video input, no
background music, no external cut audio, zoom threshold 1.01, sounded
threshold 0.04 — the source picks the fast video path while the claimed
tree picks the original method, so the claim is false. -/
theorem c1_selection_claim_counterexample :
    selectStrategy false false none (mkRat 101 100) none = Strategy.videoFast ∧
    selectStrategyClaimed false false none (mkRat 101 100) (mkRat 1 25) none
      = Strategy.originalFull ∧
    Strategy.videoFast ≠ Strategy.originalFull := by decide

/-- C1, amended: strategy selection is a strict four-way decision tree in
which the first matching condition wins — PremiereExport if export mode is
requested (regardless of classification); otherwise AudioFast if the input
is classified audio-only; otherwise VideoFast if no background music was
requested, no cut-by-external-audio override is set, and the zoom
threshold is strictly greater than 1 (so no zoom behavior can trigger);
otherwise OriginalFull. The four characterizations below are mutually
exclusive and exhaustive. -/
theorem c1_selection_decision_tree (e i : Bool) (bg : Option String) (z : ℚ)
    (c : Option String) :
    (selectStrategy e i bg z c = Strategy.premiereExport ↔ e = true) ∧
    (selectStrategy e i bg z c = Strategy.audioFast ↔ e = false ∧ i = true) ∧
    (selectStrategy e i bg z c = Strategy.videoFast ↔
      e = false ∧ i = false ∧ bg = none ∧ 1 < z ∧ c = none) ∧
    (selectStrategy e i bg z c = Strategy.originalFull ↔
      e = false ∧ i = false ∧ ¬(bg = none ∧ 1 < z ∧ c = none)) := by
  cases e <;> cases i <;>
    by_cases h : bg = none ∧ 1 < z ∧ c = none <;>
      simp [selectStrategy, h]

/-- C3: for an input whose name carries an extension (a final
dot-separated component with no further dot in it), the synthesized output
name strips the extension and appends `.xml` in editor-export mode, and
appends `_ALTERED` plus the original extension otherwise; in particular
`clip.mov` yields `clip_ALTERED.mov` with export mode off and `clip.xml`
with export mode on. -/
theorem c3_extension_naming :
    (∀ (base ext : String), '.' ∉ ext.data →
      deriveName true (base ++ "." ++ ext) = base ++ ".xml" ∧
      deriveName false (base ++ "." ++ ext) = base ++ "_ALTERED" ++ "." ++ ext) ∧
    (∀ (e : Bool) (inputs : List String) (i : Nat), i < inputs.length →
      (synthesizeOutputs e inputs []).getD i "" = deriveName e (inputs.getD i "")) ∧
    deriveName false "clip.mov" = "clip_ALTERED.mov" ∧
    deriveName true "clip.mov" = "clip.xml" := by
  refine ⟨fun base ext hext => ?_, fun e inputs i hi => ?_, by decide, by decide⟩
  case refine_2 =>
    rw [synthesizeOutputs]
    simp only [List.length_nil, Nat.sub_zero, List.nil_append]
    rw [if_pos (Nat.lt_of_le_of_lt (Nat.zero_le i) hi)]
    exact getD_range_map inputs.length i _ hi
  have hdata : (base ++ "." ++ ext).data = base.data ++ '.' :: ext.data := by
    simp [String.data_append]
  have hfind : rfindDot (base ++ "." ++ ext).data = (base.data.length : Int) := by
    rw [hdata, rfindDot_append_dot base.data ext.data hext]
  constructor
  · refine string_eq_of_data ?_
    show deriveNameL true (base ++ "." ++ ext).data = (base ++ ".xml").data
    rw [deriveNameL, hfind, if_pos rfl, pyTake_natCast, hdata, List.take_left,
      String.data_append]
  · refine string_eq_of_data ?_
    show deriveNameL false (base ++ "." ++ ext).data
      = (base ++ "_ALTERED" ++ "." ++ ext).data
    rw [deriveNameL, hfind]
    rw [if_neg Bool.false_ne_true, pyTake_natCast, pyDrop_natCast, hdata,
      List.take_left, List.drop_left]
    simp [String.data_append]

/-- C3, witness: the naming rule evaluated at the concrete input
`clip` + `.` + `mov`. -/
theorem c3_extension_naming_witness :
    deriveName true ("clip" ++ "." ++ "mov") = "clip" ++ ".xml" ∧
    deriveName false ("clip" ++ "." ++ "mov") = "clip" ++ "_ALTERED" ++ "." ++ "mov" :=
  c3_extension_naming.1 "clip" "mov" (by decide)

/-- C9: the speed clamp of lines 146-149, applied before any input is
resolved or processed, replaces a silent-speed value that is `<= 0` or
`> 99999` by `99999`, likewise for the sounded/video speed, and passes
values in `(0, 99999]` through unchanged. -/
theorem c9_speed_clamp (a : Args) :
    ((a.silent_speed ≤ 0 ∨ 99999 < a.silent_speed) →
      (effectiveArgs a).silent_speed = 99999) ∧
    (0 < a.silent_speed → a.silent_speed ≤ 99999 →
      (effectiveArgs a).silent_speed = a.silent_speed) ∧
    ((a.video_speed ≤ 0 ∨ 99999 < a.video_speed) →
      (effectiveArgs a).video_speed = 99999) ∧
    (0 < a.video_speed → a.video_speed ≤ 99999 →
      (effectiveArgs a).video_speed = a.video_speed) := by
  refine ⟨fun h => ?_, fun h1 h2 => ?_, fun h => ?_, fun h1 h2 => ?_⟩ <;>
    show clampSpeed _ = _
  · rw [clampSpeed, if_pos h]
  · rw [clampSpeed, if_neg (by rw [not_or, not_le, not_lt]; exact ⟨h1, h2⟩)]
  · rw [clampSpeed, if_pos h]
  · rw [clampSpeed, if_neg (by rw [not_or, not_le, not_lt]; exact ⟨h1, h2⟩)]

/-- C9, witness: the clamp evaluated at a silent speed of `-2` (replaced
by `99999`) and a video speed of `3` (passed through). -/
theorem c9_speed_clamp_witness :
    (effectiveArgs { argsDefault with silent_speed := -2, video_speed := 3 }).silent_speed
      = 99999 ∧
    (effectiveArgs { argsDefault with silent_speed := -2, video_speed := 3 }).video_speed
      = 3 :=
  ⟨(c9_speed_clamp { argsDefault with silent_speed := -2, video_speed := 3 }).1
      (Or.inl (by norm_num)),
    (c9_speed_clamp { argsDefault with silent_speed := -2, video_speed := 3 }).2.2.2
      (by norm_num) (by norm_num)⟩

/-- C10: for a synthesized name derived from an input name that contains
no dot, `rfind` returns `-1`, the Python slices resolve to the name minus
its final character and to that final character, so the derived output is
the input name with its final character removed, followed by `_ALTERED`
plus that final character in non-export mode, and followed by `.xml` in
export mode. -/
theorem c10_no_dot_naming (t : String) (c : Char) (ht : '.' ∉ t.data)
    (hc : c ≠ '.') :
    deriveName false (t.push c) = t ++ "_ALTERED" ++ String.mk [c] ∧
    deriveName true (t.push c) = t ++ ".xml" := by
  have hdata : (t.push c).data = t.data ++ [c] := rfl
  have hnodot : '.' ∉ (t.push c).data := by
    rw [hdata]
    simp only [List.mem_append, List.mem_singleton, not_or]
    exact ⟨ht, fun h => hc h.symm⟩
  have hfind : rfindDot (t.push c).data = -1 := rfindDot_eq_neg_one hnodot
  have hlen : (t.push c).data.length - 1 = t.data.length := by
    rw [hdata]; simp
  constructor
  · refine string_eq_of_data ?_
    show deriveNameL false (t.push c).data = (t ++ "_ALTERED" ++ String.mk [c]).data
    rw [deriveNameL, hfind, if_neg Bool.false_ne_true, pyTake_neg_one,
      pyDrop_neg_one, hlen, hdata, List.take_left, List.drop_left]
    simp [String.data_append]
  · refine string_eq_of_data ?_
    show deriveNameL true (t.push c).data = (t ++ ".xml").data
    rw [deriveNameL, hfind, if_pos rfl, pyTake_neg_one, hlen, hdata,
      List.take_left, String.data_append]

/-- C10, witness: the input name `video` (no dot) yields `vide_ALTEREDo`
in non-export mode and `vide.xml` in export mode. -/
theorem c10_no_dot_naming_witness :
    deriveName false ("vide".push 'o') = "vide" ++ "_ALTERED" ++ String.mk ['o'] ∧
    deriveName true ("vide".push 'o') = "vide" ++ ".xml" :=
  c10_no_dot_naming "vide" 'o' (by decide) (by decide)

/-- C2, counterexample. With two inputs `a.mp4`, `b.mp4` and one supplied
output `x.mp4`, the single synthesized name (at output index 1) is derived
from `inputList[0]` — the input `a.mp4` — not from the input `b.mp4` at
the same index 1, so the claim's same-index derivation is false. -/
theorem c2_same_index_counterexample :
    (synthesizeOutputs false ["a.mp4", "b.mp4"] ["x.mp4"]).getD 1 ""
      ≠ deriveName false (["a.mp4", "b.mp4"].getD 1 "") ∧
    (synthesizeOutputs false ["a.mp4", "b.mp4"] ["x.mp4"]).getD 1 ""
      = "a_ALTERED.mp4" ∧
    deriveName false (["a.mp4", "b.mp4"].getD 1 "") = "b_ALTERED.mp4" := by decide

/-- C2, amended: when the user supplied N output names for M resolved
inputs and N < M, output naming appends exactly M−N synthesized names so
that the output count equals the input count, preserves the N supplied
names in place, and derives the k-th appended name (landing at output
index N+k) from the input at index k — i.e. from the first M−N inputs in
order, not from the input at the same index as the missing output. -/
theorem c2_output_completion (e : Bool) (inputs outs : List String)
    (h : outs.length < inputs.length) :
    (synthesizeOutputs e inputs outs).length = inputs.length ∧
    (∀ j, j < outs.length →
      (synthesizeOutputs e inputs outs).getD j "" = outs.getD j "") ∧
    (∀ k, k < inputs.length - outs.length →
      (synthesizeOutputs e inputs outs).getD (outs.length + k) ""
        = deriveName e (inputs.getD k "")) := by
  rw [synthesizeOutputs, if_pos h]
  refine ⟨?_, fun j hj => ?_, fun k hk => ?_⟩
  · rw [List.length_append, List.length_map, List.length_range]
    omega
  · exact List.getD_append _ _ _ _ hj
  · rw [List.getD_append_right _ _ _ _ (Nat.le_add_right _ _),
      Nat.add_sub_cancel_left]
    exact getD_range_map _ k _ hk

/-- C2, witness: the amended completion rule evaluated at inputs
`a.mp4`, `b.mp4` with the single supplied output `x.mp4`. -/
theorem c2_output_completion_witness :
    (synthesizeOutputs false ["a.mp4", "b.mp4"] ["x.mp4"]).length
      = (["a.mp4", "b.mp4"] : List String).length ∧
    (synthesizeOutputs false ["a.mp4", "b.mp4"] ["x.mp4"]).getD 0 ""
      = (["x.mp4"] : List String).getD 0 "" ∧
    (synthesizeOutputs false ["a.mp4", "b.mp4"] ["x.mp4"]).getD
        ((["x.mp4"] : List String).length + 0) ""
      = deriveName false (["a.mp4", "b.mp4"].getD 0 "") :=
  ⟨(c2_output_completion false ["a.mp4", "b.mp4"] ["x.mp4"] (by decide)).1,
    (c2_output_completion false ["a.mp4", "b.mp4"] ["x.mp4"] (by decide)).2.1
      0 (by decide),
    (c2_output_completion false ["a.mp4", "b.mp4"] ["x.mp4"] (by decide)).2.2
      0 (by decide)⟩

/-- Does an event witness activity of the output namer, the frame-rate
corrector, or a strategy branch? -/
def Event.isPipeline : Event → Bool
  | .namedOutputs _ => true
  | .warnFrameRate _ => true
  | .mkTemp => true
  | .dispatch _ _ => true
  | _ => false

/-- A reference that is no existing file, no existing directory, and has
no `http://` or `https://` prefix. -/
def isBadRef (w : World) (r : String) : Bool :=
  !w.isFile r && !w.isDir r && !(pyStartsWith r "http://") && !(pyStartsWith r "https://")

theorem resolveInputs_error_of_bad (w : World) (ub : String → String) :
    ∀ (refs : List String) (r : String), r ∈ refs → isBadRef w r = true →
      ∃ e, resolveInputs w ub refs = .error e := by
  intro refs
  induction refs with
  | nil => intro r hr _; cases hr
  | cons x xs ih =>
    intro r hr hbad
    rw [List.mem_cons] at hr
    cases hd : w.isDir x with
    | true => exact ⟨.crash .nameErrorSort, by rw [resolveInputs, if_pos hd]⟩
    | false =>
      cases hf : w.isFile x with
      | true =>
        have hr' : r ∈ xs := by
          rcases hr with rfl | hr'
          · rw [isBadRef, hf] at hbad; simp at hbad
          · exact hr'
        obtain ⟨e, he⟩ := ih r hr' hbad
        exact ⟨e, by rw [resolveInputs, if_neg (by simp [hd]), if_pos hf, he]⟩
      | false =>
        cases hu : (pyStartsWith x "http://" || pyStartsWith x "https://") with
        | true =>
          have hr' : r ∈ xs := by
            rcases hr with rfl | hr'
            · rw [isBadRef, hf, hd] at hbad
              simp only [Bool.or_eq_true] at hu
              rcases hu with h1 | h1 <;> rw [h1] at hbad <;> simp at hbad
            · exact hr'
          obtain ⟨e, he⟩ := ih r hr' hbad
          exact ⟨e, by
            rw [resolveInputs, if_neg (by simp [hd]), if_neg (by simp [hf]),
              if_pos hu, he]⟩
        | false =>
          exact ⟨.invalidInput x, by
            rw [resolveInputs, if_neg (by simp [hd]), if_neg (by simp [hf]),
              if_neg (by simp [hu])]⟩

/-- C7: a reference that is neither an existing file, nor an existing
directory, nor an `http://`/`https://` URL makes the resolution loop
(lines 154-171) fail — either its own line-171 `sys.exit(1)` or an
earlier crash in the loop — so the whole batch ends with exit status 1
during resolution, and the run's trace contains no output-naming,
frame-rate-corrector or strategy-dispatch event for any input. -/
theorem c7_invalid_ref_aborts (w : World) (ub : String → String) (a : Args)
    (r : String) (hr : r ∈ a.input)
    (hfile : w.isFile r = false) (hdir : w.isDir r = false)
    (hhttp : pyStartsWith r "http://" = false)
    (hhttps : pyStartsWith r "https://" = false) :
    (∃ e, resolveInputs w ub a.input = .error e) ∧
    (run w ub a).outcome.exitCode = 1 ∧
    ∀ ev ∈ (run w ub a).events, ev.isPipeline = false := by
  have hbad : isBadRef w r = true := by
    rw [isBadRef, hfile, hdir, hhttp, hhttps]; rfl
  obtain ⟨e, he⟩ := resolveInputs_error_of_bad w ub a.input r hr hbad
  have hne : a.input ≠ [] := by
    intro hnil; rw [hnil] at hr; cases hr
  refine ⟨⟨e, he⟩, ?_⟩
  rw [run, if_neg hne, effectiveArgs_input, he]
  cases e with
  | invalidInput r' =>
    exact ⟨rfl, by intro ev hev; rw [List.mem_singleton] at hev; rw [hev]; rfl⟩
  | crash e' =>
    exact ⟨rfl, by intro ev hev; cases hev⟩

/-- C7, witness: a single nonexistent path reference `ghost.mp4` in an
otherwise empty world aborts the run with exit status 1 and no pipeline
activity. -/
theorem c7_invalid_ref_aborts_witness :
    (∃ e, resolveInputs emptyWorld noUrl ["ghost.mp4"] = .error e) ∧
    (run emptyWorld noUrl
        { argsDefault with input := ["ghost.mp4"] }).outcome.exitCode = 1 ∧
    ∀ ev ∈ (run emptyWorld noUrl { argsDefault with input := ["ghost.mp4"] }).events,
      ev.isPipeline = false :=
  c7_invalid_ref_aborts emptyWorld noUrl { argsDefault with input := ["ghost.mp4"] }
    "ghost.mp4" (by decide) rfl rfl (by decide) (by decide)

/-- A world containing exactly one plain file and one directory. -/
def fileAndDirWorld (file dir : String) : World :=
  { isFile := fun s => s == file, isDir := fun s => s == dir,
    isAudio := fun _ => false, probeOut := fun _ => "" }

/-- C8, counterexample. The claim says a directory input reference
resolves to the directory's entries in sorted order with non-file entries
rejected; in the source, line 157 calls `sort(os.listdir(myInput))`, and
`sort` is an unbound name, so resolving the directory `clips` raises
`NameError` and produces no resolved sequence at all. -/
theorem c8_directory_counterexample :
    resolveInputs (dirWorld "clips") noUrl ["clips"]
      = .error (.crash .nameErrorSort) ∧
    (resolveInputs (dirWorld "clips") noUrl ["clips"]).toOption = none :=
  ⟨rfl, rfl⟩

/-- C8, amended: a directory input reference (after any earlier references
that are plain existing files) makes resolution fail with the unbound-name
crash of line 157 before any directory entry is read, so the resolved
sequence never contains the directory's entries — no sorting and no
non-file rejection takes place. -/
theorem c8_directory_crash (w : World) (ub : String → String)
    (pre : List String) (d : String) (rest : List String)
    (hpre : ∀ p ∈ pre, w.isDir p = false ∧ w.isFile p = true)
    (hd : w.isDir d = true) :
    resolveInputs w ub (pre ++ d :: rest) = .error (.crash .nameErrorSort) := by
  induction pre with
  | nil => rw [List.nil_append, resolveInputs, if_pos hd]
  | cons x xs ih =>
    obtain ⟨hxd, hxf⟩ := hpre x (List.mem_cons_self x xs)
    rw [List.cons_append, resolveInputs, if_neg (by simp [hxd]), if_pos hxf,
      ih (fun p hp => hpre p (List.mem_cons_of_mem x hp))]

/-- C8, witness: the directory crash evaluated on a world with the plain
file `a.mp4` followed by the directory `clips`. -/
theorem c8_directory_crash_witness :
    resolveInputs (fileAndDirWorld "a.mp4" "clips") noUrl
        (["a.mp4"] ++ "clips" :: [])
      = .error (.crash .nameErrorSort) :=
  c8_directory_crash (fileAndDirWorld "a.mp4" "clips") noUrl
    ["a.mp4"] "clips" [] (by decide) rfl

/-- C4: contrary to the claim, neither failure mode of the frame-rate
probe leads to a completed 30 fps re-encode. A probe text with no ` tbr`
token takes the `AttributeError` path — the warning is printed and the
ephemeral directory is created — but building the re-encode command at
line 240 reads the never-assigned name `extension`, so the run crashes
before the re-encode and before any path substitution; and a matched
token that fails `float` (such as `.`) raises a `ValueError` that the
`except AttributeError` clause does not catch, a hard crash rather than a
warning. -/
theorem c4_frame_rate_failure_crashes :
    frameRateStep "Duration: N/A, bitrate: N/A" = ProbeStep.repairCrash ∧
    searchTbr " . tbr".data = some ['.'] ∧
    pyFloatOk ['.'] = false ∧
    frameRateStep " . tbr" = ProbeStep.crashValue ∧
    (run (videoWorld "x.mp4" "Duration: N/A, bitrate: N/A") noUrl
        { argsDefault with input := ["x.mp4"] }).events
      = [Event.namedOutputs ["x_ALTERED.mp4"], Event.warnFrameRate "x.mp4",
          Event.mkTemp] ∧
    (run (videoWorld "x.mp4" "Duration: N/A, bitrate: N/A") noUrl
        { argsDefault with input := ["x.mp4"] }).outcome
      = Outcome.crashed PyError.nameErrorExtension ∧
    (run (videoWorld "y.mp4" " . tbr") noUrl
        { argsDefault with input := ["y.mp4"] }).outcome
      = Outcome.crashed PyError.valueErrorFloat := by decide

/-- C5: the post-loop check of lines 273-275 never reads the disk and
never consults the declared outputs — line 273 references the
never-assigned name `outFile`, so reaching it raises `NameError`, the
process exits with status 1 whatever is on disk, and a run whose outputs
all exist still does not exit 0. -/
theorem c5_final_check_never_reads_disk (w : World) (lastOut : String) :
    finalOutputCheck w lastOut = Outcome.crashed PyError.nameErrorOutFile ∧
    (finalOutputCheck w lastOut).exitCode = 1 ∧
    finalOutputCheck w lastOut ≠ Outcome.exited 0 :=
  ⟨rfl, rfl, fun h => Outcome.noConfusion h⟩

theorem processInput_no_cleanup (w : World) (a : Args) (f : String) :
    Event.removeTemp ∉ (processInput w a f).1 ∧
    (Event.mkTemp ∈ (processInput w a f).1 →
      (processInput w a f).2 = Outcome.crashed PyError.nameErrorExtension) := by
  unfold processInput
  cases hsel : selectStrategy a.export_to_premiere (w.isAudio f) a.background_music
      a.zoom_threshold a.cut_by_this_audio <;>
    cases hfr : frameRateStep (w.probeOut f) <;> simp

theorem runResolved_no_cleanup (w : World) (a : Args) (l : List String) :
    Event.removeTemp ∉ (runResolved w a l).events ∧
    (Event.mkTemp ∈ (runResolved w a l).events →
      (runResolved w a l).outcome = Outcome.crashed PyError.nameErrorExtension) := by
  simp only [runResolved]
  by_cases hp : a.preview = true
  · rw [if_pos hp]
    exact ⟨by simp, by simp⟩
  · rw [if_neg hp]
    cases hq : (if a.combine_files = true then ["combined.mp4"] else l) with
    | nil => exact ⟨by simp, by simp⟩
    | cons f fs =>
      have h := processInput_no_cleanup w a f
      constructor
      · intro hmem
        rcases List.mem_cons.mp hmem with h1 | h1
        · cases h1
        · exact h.1 h1
      · intro hmem
        rcases List.mem_cons.mp hmem with h1 | h1
        · cases h1
        · exact h.2 h1

/-- C6, counterexample. A run on a single video input whose probe text
lacks a ` tbr` token creates the ephemeral working directory (line 237)
and then terminates — via the uncaught `NameError` on `extension` — with
no `rmtree` ever executed: the directory is left in place, so cleanup is
not guaranteed on every exit route. -/
theorem c6_cleanup_counterexample :
    Event.mkTemp ∈ (run (videoWorld "v.mp4" "no tbr here") noUrl
      { argsDefault with input := ["v.mp4"] }).events ∧
    Event.removeTemp ∉ (run (videoWorld "v.mp4" "no tbr here") noUrl
      { argsDefault with input := ["v.mp4"] }).events ∧
    (run (videoWorld "v.mp4" "no tbr here") noUrl
      { argsDefault with input := ["v.mp4"] }).outcome
      = Outcome.crashed PyError.nameErrorExtension := by decide

/-- C6, amended: no exit route of the orchestrator releases the ephemeral
working directory. The `rmtree(TEMP)` of lines 289-290 is the last
statement of `main` and is not in a `finally` block; every route that
creates the directory crashes immediately afterwards on the unbound name
`extension` (and even a run that completed its loop would crash at the
line-273 check before reaching the cleanup), so the process always ends
with the directory still in place whenever one was created. -/
theorem run_no_cleanup (w : World) (ub : String → String) (a : Args) :
    Event.removeTemp ∉ (run w ub a).events ∧
    (Event.mkTemp ∈ (run w ub a).events →
      (run w ub a).outcome = Outcome.crashed PyError.nameErrorExtension) := by
  rw [run]
  by_cases hin : a.input = []
  · rw [if_pos hin]
    exact ⟨by simp, by simp⟩
  · rw [if_neg hin]
    cases hres : resolveInputs w ub (effectiveArgs a).input with
    | error e => cases e <;> exact ⟨by simp, by simp⟩
    | ok l => exact runResolved_no_cleanup w (effectiveArgs a) l

/-- C6, witness: the no-cleanup theorem evaluated on a run that does
create the ephemeral directory (probe text without a ` tbr` token). -/
theorem run_no_cleanup_witness :
    (run (videoWorld "w.mp4" "vfr clip") noUrl
        { argsDefault with input := ["w.mp4"] }).outcome
      = Outcome.crashed PyError.nameErrorExtension ∧
    Event.removeTemp ∉ (run (videoWorld "w.mp4" "vfr clip") noUrl
        { argsDefault with input := ["w.mp4"] }).events :=
  ⟨(run_no_cleanup (videoWorld "w.mp4" "vfr clip") noUrl
        { argsDefault with input := ["w.mp4"] }).2 (by decide),
    (run_no_cleanup (videoWorld "w.mp4" "vfr clip") noUrl
        { argsDefault with input := ["w.mp4"] }).1⟩

end AutoEditor
